import Mathlib

/-!
Shallow embedding of the memflow core value types and plugin machinery,
with theorems checking the natural-language specification against the code.

Machine integers (`u64`, `usize` on a 64-bit target, `u32`) are embedded as
`Nat` with explicit reduction modulo `2 ^ 64` (resp. `2 ^ 32`) exactly where
the Rust code performs a wrapping operation or a truncating cast.
-/

namespace Memflow

/-- `2 ^ 64`, the modulus of `u64` arithmetic. -/
def u64Mod : Nat := 18446744073709551616

/-- `2 ^ 64`, the modulus of `usize` arithmetic on the 64-bit targets memflow supports. -/
def usizeMod : Nat := 18446744073709551616

/-- `2 ^ 32`, the modulus of `u32` arithmetic. -/
def u32Mod : Nat := 4294967296

/-- `u32::max_value()`. -/
def u32Max : Nat := 4294967295

theorem u64Mod_eq : u64Mod = 2 ^ 64 := by norm_num [u64Mod]

theorem u32Mod_eq : u32Mod = 2 ^ 32 := by norm_num [u32Mod]

/-- Error type of the `memflow` types crate (`src/memflow/src/types/pointer64.rs`
uses `crate::error::Error::Bounds`). Only the variants the embedded code
constructs are modelled. -/
inductive Error where
  | Bounds : Error
deriving DecidableEq, Repr

/-- `Pointer64<T>` from `src/memflow/src/types/pointer64.rs`: a `u64` address
together with a phantom type tag. The tag carries no runtime data; arithmetic
depends on it only through `size_of::<T>()`, which the embedded operations take
as an explicit `Nat` parameter. -/
structure Pointer64 where
  address : Nat
deriving DecidableEq, Repr

namespace Pointer64

/-- `Pointer64::NULL`. -/
def NULL : Pointer64 := ⟨0⟩

/-- `Pointer64::null()`. -/
def null : Pointer64 := NULL

/-- `Pointer64::is_null`: `self.address == 0`. -/
def is_null (p : Pointer64) : Bool := p.address == 0

/-- `impl From<u64> for Pointer64<T>`: wraps the raw `u64` address. -/
def fromU64 (address : Nat) : Pointer64 := ⟨address⟩

/-- `Pointer64::<[T]>::at`: `self.address + (i * size_of::<T>()) as u64`.
The `usize` multiplication wraps modulo `2 ^ 64`, as does the `u64` addition.
`sizeOfT` is the compile-time constant `size_of::<T>()`. -/
def «at» (sizeOfT : Nat) (p : Pointer64) (i : Nat) : Pointer64 :=
  ⟨(p.address + (i * sizeOfT) % usizeMod) % u64Mod⟩

/-- `impl ops::Add<usize> for Pointer64<T>`:
`self.address + (other * size_of::<T>()) as u64`, with `usize` and `u64`
wrapping semantics. -/
def add (sizeOfT : Nat) (p : Pointer64) (other : Nat) : Pointer64 :=
  ⟨(p.address + (other * sizeOfT) % usizeMod) % u64Mod⟩

/-- `impl ops::Sub<usize> for Pointer64<T>`:
`self.address - (other * size_of::<T>()) as u64`, the `u64` wrapping
difference. -/
def sub (sizeOfT : Nat) (p : Pointer64) (other : Nat) : Pointer64 :=
  ⟨(p.address % u64Mod + (u64Mod - (other * sizeOfT) % usizeMod % u64Mod)) % u64Mod⟩

/-- `impl TryFrom<Pointer64<T>> for u32`: `Ok(ptr.address as u32)` when
`ptr.address <= u32::max_value() as u64`, else `Err(Error::Bounds)`.
The `as u32` cast truncates to the low 32 bits. -/
def tryFromU32 (p : Pointer64) : Except Error Nat :=
  if p.address ≤ u32Max then Except.ok (p.address % u32Mod) else Except.error Error.Bounds

end Pointer64

namespace Core

/-- Error type of the `memflow-core` crate as used by
`src/memflow-core/src/connector/plugin.rs`: `IO`, `Connector` and `Other`
carry `&'static str` messages. -/
inductive Error where
  | Io : String → Error
  | Connector : String → Error
  | Other : String → Error
deriving DecidableEq, Repr

/-- `MEMFLOW_CONNECTOR_VERSION: i32 = 1`. -/
def MEMFLOW_CONNECTOR_VERSION : Int := 1

/-- `ConnectorDescriptor`: the record a plugin library exports under the
`MEMFLOW_CONNECTOR` symbol. `Args` and `Conn` abstract over `ConnectorArgs`
and the boxed `PhysicalMemory` object. -/
structure ConnectorDescriptor (Args Conn : Type) where
  connector_version : Int
  name : String
  factory : Args → Except Error Conn

/-- A shared library file on disk, as `Connector::try_with` observes it:
whether `Library::new` succeeds, and the `MEMFLOW_CONNECTOR` descriptor if the
symbol resolves. -/
structure LibraryFile (Args Conn : Type) where
  loads : Bool
  descriptor : Option (ConnectorDescriptor Args Conn)

/-- `Connector`: a loaded plugin library (the `Arc<Library>` handle is not
observable and is dropped from the embedding). -/
structure Connector (Args Conn : Type) where
  name : String
  factory : Args → Except Error Conn

/-- `ConnectorInstance`: the provider produced by a factory, bundled with a
library reference. -/
structure ConnectorInstance (Conn : Type) where
  connector : Conn

/-- `Connector::try_with`: load the library, resolve the `MEMFLOW_CONNECTOR`
descriptor, reject on `connector_version != MEMFLOW_CONNECTOR_VERSION`. -/
def Connector.try_with (lib : LibraryFile Args Conn) :
    Except Error (Connector Args Conn) :=
  if lib.loads then
    match lib.descriptor with
    | none => Except.error (Error.Connector "connector descriptor not found")
    | some desc =>
      if desc.connector_version ≠ MEMFLOW_CONNECTOR_VERSION then
        Except.error (Error.Connector "connector version mismatch")
      else
        Except.ok ⟨desc.name, desc.factory⟩
  else
    Except.error (Error.Connector "unable to load library")

/-- `Connector::create`: call the factory; any factory error is replaced by
`Error::Connector("Failed to create a connector")` (a static string), so no
error value from the plugin escapes. -/
def Connector.create (c : Connector Args Conn) (args : Args) :
    Except Error (ConnectorInstance Conn) :=
  match c.factory args with
  | Except.error _ => Except.error (Error.Connector "Failed to create a connector")
  | Except.ok conn => Except.ok ⟨conn⟩

/-- A directory as `ConnectorInventory::add_dir` observes it: whether the path
is a directory, whether `read_dir` succeeds, and the sequence of entries
(`none` models a `DirEntry` the iterator fails to read; `some f` a readable
entry whose file is `f`). -/
structure Directory (Args Conn : Type) where
  is_dir : Bool
  readable : Bool
  entries : List (Option (LibraryFile Args Conn))

/-- `ConnectorInventory`. -/
structure ConnectorInventory (Args Conn : Type) where
  connectors : List (Connector Args Conn)

/-- The entry loop of `ConnectorInventory::add_dir`: each readable entry is
tried with `Connector::try_with`; successes are pushed, failures skipped. -/
def addDirGo : List (Option (LibraryFile Args Conn)) → List (Connector Args Conn) →
    Except Error (List (Connector Args Conn))
  | [], acc => Except.ok acc
  | none :: _, _ => Except.error (Error.Io "unable to read directory entry")
  | some f :: rest, acc =>
    match Connector.try_with f with
    | Except.ok c => addDirGo rest (acc ++ [c])
    | Except.error _ => addDirGo rest acc

/-- `ConnectorInventory::add_dir` applied to an empty starting inventory:
fails with `Error::IO` if the path is not a directory or `read_dir` fails,
then runs the entry loop. -/
def add_dir (d : Directory Args Conn) : Except Error (List (Connector Args Conn)) :=
  if d.is_dir then
    if d.readable then addDirGo d.entries []
    else Except.error (Error.Io "unable to read directory")
  else Except.error (Error.Io "invalid path argument")

/-- `ConnectorInventory::with_path`: start from an empty inventory and
`add_dir` the given path. -/
def with_path (d : Directory Args Conn) :
    Except Error (ConnectorInventory Args Conn) :=
  (add_dir d).map (fun cs => ⟨cs⟩)

/-- `ConnectorInventory::create_connector`: find the connector by name
(`Error::Connector("connector not found")` if absent) and `create` it. -/
def create_connector (inv : ConnectorInventory Args Conn) (name : String)
    (args : Args) : Except Error (ConnectorInstance Conn) :=
  match inv.connectors.find? (fun c => c.name == name) with
  | none => Except.error (Error.Connector "connector not found")
  | some c => c.create args

/-- `Box::new` at the plugin boundary. -/
structure Boxed (Conn : Type) where
  val : Conn

/-- The `MEMFLOW_CONNECTOR` descriptor generated by the `#[connector]`
proc-macro in `src/memflow-derive/src/lib.rs`: `connector_version` is
`MEMFLOW_CONNECTOR_VERSION`, `name` is the macro's `name` argument, and the
factory runs the annotated user function, boxing its `Ok` value with `?`
propagating its error. -/
def macroConnectorDescriptor (name : String) (userFn : Args → Except Error Conn) :
    ConnectorDescriptor Args (Boxed Conn) :=
  { connector_version := MEMFLOW_CONNECTOR_VERSION
    name := name
    factory := fun args =>
      match userFn args with
      | Except.ok c => Except.ok ⟨c⟩
      | Except.error e => Except.error e }

end Core

namespace Ffi

/-- `phys_read_u32` from `src/memflow-ffi/src/mem/phys_mem.rs`:
`mem.phys_read::<u32>(addr).unwrap_or_default()`. The memory instance is
abstracted as the outcome function of its typed `phys_read::<u32>`;
`u32::default()` is `0`. -/
def phys_read_u32 (memRead : Nat → Except Core.Error Nat) (addr : Nat) : Nat :=
  match memRead addr with
  | Except.ok v => v
  | Except.error _ => 0

/-- `phys_read_u64`: `mem.phys_read::<u64>(addr).unwrap_or_default()`. -/
def phys_read_u64 (memRead : Nat → Except Core.Error Nat) (addr : Nat) : Nat :=
  match memRead addr with
  | Except.ok v => v
  | Except.error _ => 0

end Ffi

namespace Win32

/-- `ErrorOrigin` of the `memflow` error type used by
`src/memflow-win32/src/plugins.rs`. -/
inductive ErrorOrigin where
  | OsLayer : ErrorOrigin
deriving DecidableEq, Repr

/-- `ErrorKind` variants constructed in `src/memflow-win32/src/plugins.rs`. -/
inductive ErrorKind where
  | Configuration : ErrorKind
deriving DecidableEq, Repr

/-- `Error(ErrorOrigin, ErrorKind).log_error(msg)`: the error value together
with the logged message. -/
structure Error where
  origin : ErrorOrigin
  kind : ErrorKind
  msg : String
deriving DecidableEq, Repr

/-- Rust `str::split(c)` on a string embedded as `List Char`: the
accumulator-based splitter (`splitCharAux c s []` is the split of `s`). -/
def splitCharAux (c : Char) : List Char → List Char → List (List Char)
  | [], acc => [acc.reverse]
  | x :: xs, acc =>
    if x = c then acc.reverse :: splitCharAux c xs []
    else splitCharAux c xs (x :: acc)

/-- Rust `str::split(c)`. -/
def splitChar (c : Char) (s : List Char) : List (List Char) :=
  splitCharAux c s []

/-- Rust `str::contains(needle)`: substring containment. -/
def containsSub (needle : List Char) : List Char → Bool
  | [] => needle.isEmpty
  | x :: xs => needle.isPrefixOf (x :: xs) || containsSub needle xs

/-- Rust `str::splitn(2, c)` exposed as the pair of its (at most two) items:
the text before the first occurrence of `c`, and `some` remainder after it
(or `none` when `c` does not occur). -/
def splitn2 (c : Char) : List Char → List Char × Option (List Char)
  | [] => ([], none)
  | x :: xs =>
    if x = c then ([], some xs)
    else
      let r := splitn2 c xs
      (x :: r.1, r.2)

/-- One round of Rust `str::trim_end_matches(pat)` iterated with explicit
fuel (each round removes one trailing copy of `pat`; `s.length` rounds always
suffice). -/
def trimEndMatchesAux (pat : List Char) : Nat → List Char → List Char
  | 0, s => s
  | n + 1, s =>
    if !pat.isEmpty && pat.isSuffixOf s then
      trimEndMatchesAux pat n (s.take (s.length - pat.length))
    else s

/-- Rust `str::trim_end_matches(pat)`: repeatedly removes trailing copies of
`pat`. -/
def trimEndMatches (pat s : List Char) : List Char :=
  trimEndMatchesAux pat s.length s

/-- Value of a hex digit, as `usize::from_str_radix(_, 16)` accepts it
(case-insensitive). -/
def digitValHex (c : Char) : Option Nat :=
  if '0' ≤ c ∧ c ≤ '9' then some (c.toNat - '0'.toNat)
  else if 'a' ≤ c ∧ c ≤ 'f' then some (c.toNat - 'a'.toNat + 10)
  else if 'A' ≤ c ∧ c ≤ 'F' then some (c.toNat - 'A'.toNat + 10)
  else none

/-- Value of a decimal digit. -/
def digitValDec (c : Char) : Option Nat :=
  if '0' ≤ c ∧ c ≤ '9' then some (c.toNat - '0'.toNat)
  else none

/-- Digit-accumulation loop of `from_str_radix`. -/
def parseDigitsAcc (digVal : Char → Option Nat) (radix : Nat) :
    List Char → Nat → Option Nat
  | [], acc => some acc
  | c :: cs, acc =>
    match digVal c with
    | none => none
    | some d => parseDigitsAcc digVal radix cs (acc * radix + d)

/-- Rust `from_str_radix` for an unsigned 64-bit integer (`usize` on the
64-bit targets, or `u64` via `str::parse`): an optional leading `+`, then at
least one digit, rejecting any other character and any value not below
`2 ^ 64`. -/
def fromStrRadix (radix : Nat) (digVal : Char → Option Nat) (s : List Char) :
    Option Nat :=
  let s1 := match s with
    | '+' :: rest => rest
    | other => other
  match s1 with
  | [] => none
  | _ =>
    match parseDigitsAcc digVal radix s1 0 with
    | none => none
    | some v => if v < usizeMod then some v else none

/-- `usize::from_str_radix(s, 16)`. -/
def fromStrRadix16 (s : List Char) : Option Nat := fromStrRadix 16 digitValHex s

/-- `s.parse::<u64>()`. -/
def parseU64Dec (s : List Char) : Option Nat := fromStrRadix 10 digitValDec s

/-- Modelled from the spec: `size::kb(n) = n · 1024` from the memflow types
crate (`src/memflow/src/types/size.rs` is not part of the provided sources;
§3 of the spec defines the helper). -/
def size.kb (n : Nat) : Nat := n * 1024

/-- Modelled from the spec: `size::mb(n) = n · 1024²`. -/
def size.mb (n : Nat) : Nat := n * 1048576

/-- Modelled from the spec: `size::gb(n) = n · 1024³`. -/
def size.gb (n : Nat) : Nat := n * 1073741824

/-- The flattened unit table of `build_page_cache`:
`[(kb(1), "kb"), (kb(1), "k"), (mb(1), "mb"), (mb(1), "m"), (gb(1), "gb"),
(gb(1), "g")]` in iteration order. -/
def unitTable : List (Nat × List Char) :=
  [(size.kb 1, String.toList "kb"), (size.kb 1, String.toList "k"),
   (size.mb 1, String.toList "mb"), (size.mb 1, String.toList "m"),
   (size.gb 1, String.toList "gb"), (size.gb 1, String.toList "g")]

/-- The unit-matching filter of `build_page_cache`: the first table entry
whose suffix matches `size.to_lowercase()` yields
`(size.trim_end_matches(e), m)`. -/
def findUnit (s : List Char) : Option (List Char × Nat) :=
  unitTable.findSome? (fun p =>
    if p.2.isSuffixOf (s.map Char.toLower) then some (trimEndMatches p.2 s, p.1)
    else none)

/-- Outcome of `build_page_cache`: a timed `CachedMemoryAccess` with explicit
`cache_size` and validator time, the builder-default cache (section present
but without `:` arguments), or no page cache (no section contains "page"). -/
inductive PageCacheCfg where
  | timed (size timeMs : Nat) : PageCacheCfg
  | defaultCache : PageCacheCfg
  | noCache : PageCacheCfg
deriving DecidableEq, Repr

/-- Outcome of `build_vat`: a timed `CachedVirtualTranslate` with explicit
entry count and validator time, the builder-default cache, or none. -/
inductive VatCacheCfg where
  | timed (entries timeMs : Nat) : VatCacheCfg
  | defaultCache : VatCacheCfg
  | noCache : VatCacheCfg
deriving DecidableEq, Repr

/-- The page-cache parsing of `build_page_cache` in
`src/memflow-win32/src/plugins.rs`: find the `&`-separated section containing
"page", take the text after `:`, split it at the first `;` into size and
time, resolve the size unit suffix, parse the size as hex and the time as
decimal. -/
def build_page_cache (mode : List Char) : Except Error PageCacheCfg :=
  match (splitChar '&' mode).find? (fun s => containsSub (String.toList "page") s) with
  | some page =>
    match (splitChar ':' page)[1]? with
    | some vargs =>
      let sp := splitn2 ';' vargs
      match sp.2 with
      | none =>
        Except.error ⟨ErrorOrigin.OsLayer, ErrorKind.Configuration,
          "Failed to parse Page Cache validator time"⟩
      | some timeStr =>
        match findUnit sp.1 with
        | none =>
          Except.error ⟨ErrorOrigin.OsLayer, ErrorKind.Configuration,
            "Invalid Page Cache size unit (or none)!"⟩
        | some mulPair =>
          match fromStrRadix16 mulPair.1 with
          | none =>
            Except.error ⟨ErrorOrigin.OsLayer, ErrorKind.Configuration,
              "Failed to parse Page Cache size"⟩
          | some size =>
            match parseU64Dec timeStr with
            | none =>
              Except.error ⟨ErrorOrigin.OsLayer, ErrorKind.Configuration,
                "Failed to parse Page Cache validity time"⟩
            | some time =>
              Except.ok (PageCacheCfg.timed ((size * mulPair.2) % usizeMod) time)
    | none => Except.ok PageCacheCfg.defaultCache
  | none => Except.ok PageCacheCfg.noCache

/-- The VAT-cache parsing of `build_vat` in
`src/memflow-win32/src/plugins.rs`: find the `&`-separated section containing
"vat", take the text after `:`, split it at the first `;` into entry count
(hex) and validator time (decimal). -/
def build_vat (mode : List Char) : Except Error VatCacheCfg :=
  match (splitChar '&' mode).find? (fun s => containsSub (String.toList "vat") s) with
  | some vat =>
    match (splitChar ':' vat)[1]? with
    | some vargs =>
      let sp := splitn2 ';' vargs
      match sp.2 with
      | none =>
        Except.error ⟨ErrorOrigin.OsLayer, ErrorKind.Configuration,
          "Failed to parse VAT validator time"⟩
      | some timeStr =>
        match fromStrRadix16 sp.1 with
        | none =>
          Except.error ⟨ErrorOrigin.OsLayer, ErrorKind.Configuration,
            "Failed to parse VAT size"⟩
        | some size =>
          match parseU64Dec timeStr with
          | none =>
            Except.error ⟨ErrorOrigin.OsLayer, ErrorKind.Configuration,
              "Failed to parse VAT validity time"⟩
          | some time => Except.ok (VatCacheCfg.timed size time)
    | none => Except.ok VatCacheCfg.defaultCache
  | none => Except.ok VatCacheCfg.noCache

/-- The cache configuration a `memcache=<spec>` mode string produces. -/
structure CacheConfig where
  page : PageCacheCfg
  vat : VatCacheCfg
deriving DecidableEq, Repr

/-- Outcome of `build_caches`: the builder-default caches, no caches, or the
custom configuration parsed from `<spec>`. -/
inductive CachesChoice where
  | defaults : CachesChoice
  | noCaches : CachesChoice
  | custom (cfg : CacheConfig) : CachesChoice
deriving DecidableEq, Repr

/-- `build_caches` in `src/memflow-win32/src/plugins.rs`: dispatch on the
`memcache` Args value (absent means "default"); a custom mode runs
`build_vat`, which in turn runs `build_page_cache` on the same mode string,
so a VAT parse error surfaces before a page-cache parse error. -/
def build_caches (memcache : Option (List Char)) : Except Error CachesChoice :=
  let v := memcache.getD (String.toList "default")
  if v = String.toList "default" then Except.ok CachesChoice.defaults
  else if v = String.toList "none" then Except.ok CachesChoice.noCaches
  else
    match build_vat v with
    | Except.error e => Except.error e
    | Except.ok vat =>
      match build_page_cache v with
      | Except.error e => Except.error e
      | Except.ok page => Except.ok (CachesChoice.custom ⟨page, vat⟩)

end Win32

end Memflow

namespace MemflowTheorems

open Memflow

/-- C8: `Pointer64::null().is_null()` holds, and for every `x`,
`Pointer64::from(x).is_null()` holds iff `x == 0`. -/
theorem pointer64_null_spec :
    Pointer64.null.is_null = true ∧
      ∀ x : Nat, (Pointer64.fromU64 x).is_null = true ↔ x = 0 := by
  refine ⟨rfl, fun x => ?_⟩
  simp [Pointer64.is_null, Pointer64.fromU64]

/-- C7: `TryFrom<Pointer64> for u32` returns `Ok` with the low 32 bits of the
address exactly when the address is at most `u32::MAX`, and fails with
`Error::Bounds` exactly when the address exceeds `u32::MAX`. -/
theorem pointer64_try_from_u32_bounds :
    ∀ a : Nat,
      (Pointer64.tryFromU32 ⟨a⟩ = Except.ok (a % u32Mod) ↔ a ≤ u32Max) ∧
      (Pointer64.tryFromU32 ⟨a⟩ = Except.error Error.Bounds ↔ u32Max < a) := by
  intro a
  constructor
  · constructor
    · intro h
      by_contra hgt
      simp [Pointer64.tryFromU32, hgt] at h
    · intro h
      simp [Pointer64.tryFromU32, h]
  · constructor
    · intro h
      by_contra hle
      push_neg at hle
      simp [Pointer64.tryFromU32, hle] at h
    · intro h
      have : ¬ a ≤ u32Max := by omega
      simp [Pointer64.tryFromU32, this]

/-- C6: for all `a`, `b` and element size `s`, `Pointer64::from(a).at(b)` has
address `a + b * s`, ignoring overflow (i.e. whenever the exact sum fits in a
`u64`). -/
theorem pointer64_at_address (s a b : Nat) (h : a + b * s < u64Mod) :
    ((Pointer64.fromU64 a).«at» s b).address = a + b * s := by
  simp only [Pointer64.fromU64, Pointer64.«at», usizeMod, u64Mod] at *
  omega

/-- Witness for C6 at the concrete input `a = 0x1000`, `b = 2`, `s = 8`. -/
theorem pointer64_at_address_witness :
    0x1000 + 2 * 8 < u64Mod ∧
      ((Pointer64.fromU64 0x1000).«at» 8 2).address = 0x1000 + 2 * 8 :=
  ⟨by decide, pointer64_at_address 8 0x1000 2 (by decide)⟩

/-- C5: `Pointer64` add/sub of a `usize` offset scaled by `size_of::<T>()`
follows a single total rule that is either wrapping modulo `2 ^ 64` or
saturating; the code wraps: addition yields the sum modulo `2 ^ 64` and
subtraction yields the difference modulo `2 ^ 64` (as integers). -/
theorem pointer64_arith_wrapping_rule :
    (∀ (s : Nat) (p : Pointer64) (o : Nat),
        (p.add s o).address = (p.address + o * s) % u64Mod ∧
        ((p.sub s o).address : Int) =
          ((p.address : Int) - ((o * s : Nat) : Int)) % (u64Mod : Int)) ∨
    (∀ (s : Nat) (p : Pointer64) (o : Nat),
        (p.add s o).address = min (p.address + o * s) (u64Mod - 1) ∧
        (p.sub s o).address = p.address - o * s) := by
  left
  intro s p o
  constructor
  · simp only [Pointer64.add, usizeMod, u64Mod]
    omega
  · simp only [Pointer64.sub, usizeMod, u64Mod]
    push_cast
    omega

open Memflow.Core in
/-- Helper for C2: with every directory entry readable, the `add_dir` entry
loop always succeeds and returns the accumulated connectors followed by
exactly those entries whose `Connector::try_with` succeeded. -/
theorem addDirGo_all_readable {Args Conn : Type}
    (entries : List (Option (LibraryFile Args Conn)))
    (acc : List (Connector Args Conn))
    (h : entries.all (fun e => e.isSome) = true) :
    addDirGo entries acc =
      Except.ok (acc ++ entries.filterMap
        (fun e => e.bind (fun f => (Connector.try_with f).toOption))) := by
  induction entries generalizing acc with
  | nil => simp [addDirGo]
  | cons e rest ih =>
    cases e with
    | none => simp at h
    | some f =>
      simp only [List.all_cons, Bool.and_eq_true, Option.isSome_some] at h
      rw [addDirGo]
      cases htw : Connector.try_with f with
      | ok c =>
        simp [ih, h.2, htw, Except.toOption, List.filterMap_cons, List.append_assoc]
      | error err =>
        simp [ih, h.2, htw, Except.toOption, List.filterMap_cons]

open Memflow.Core in
/-- C2: building an inventory from an existing, readable directory never
fails because of the directory's contents: construction succeeds, files that
fail to load as connectors are skipped (the inventory holds exactly the
successfully loaded ones), and an empty directory yields zero connectors. -/
theorem inventory_with_path_contents_never_fail {Args Conn : Type}
    (d : Directory Args Conn)
    (hdir : d.is_dir = true) (hread : d.readable = true)
    (hentries : d.entries.all (fun e => e.isSome) = true) :
    with_path d =
      Except.ok ⟨d.entries.filterMap
        (fun e => e.bind (fun f => (Connector.try_with f).toOption))⟩ ∧
    (d.entries = [] → with_path d = Except.ok ⟨[]⟩) := by
  have hmain : with_path d =
      Except.ok ⟨d.entries.filterMap
        (fun e => e.bind (fun f => (Connector.try_with f).toOption))⟩ := by
    rw [with_path, add_dir, hdir, hread]
    simp only [if_true]
    rw [addDirGo_all_readable d.entries [] hentries]
    simp [Except.map]
  refine ⟨hmain, fun hnil => ?_⟩
  rw [hmain, hnil]
  simp

open Memflow.Core in
/-- A concrete directory for the C2 witness: one library that loads with
version 1, one that loads with version 0 (rejected and skipped), one that is
not a shared object (fails to load, skipped). -/
def sampleGoodLib : LibraryFile Unit Unit :=
  ⟨true, some ⟨1, "good", fun _ => Except.ok ()⟩⟩

open Memflow.Core in
/-- A library exporting `connector_version = 0`, for witnesses. -/
def sampleStaleLib : LibraryFile Unit Unit :=
  ⟨true, some ⟨0, "stale", fun _ => Except.ok ()⟩⟩

open Memflow.Core in
/-- A file that is not a loadable shared object, for witnesses. -/
def sampleBadFile : LibraryFile Unit Unit :=
  ⟨false, none⟩

open Memflow.Core in
/-- A directory with one good and two bad files, for the C2 witness. -/
def sampleDir : Directory Unit Unit :=
  ⟨true, true, [some sampleGoodLib, some sampleStaleLib, some sampleBadFile]⟩

open Memflow.Core in
/-- An empty directory, for the C2 witness. -/
def sampleEmptyDir : Directory Unit Unit := ⟨true, true, []⟩

open Memflow.Core in
/-- Witness for C2: the sample directory (one good library, two bad files)
yields an inventory holding exactly the good connector, and the empty
directory yields an inventory with zero connectors. -/
theorem inventory_with_path_contents_never_fail_witness :
    with_path sampleDir = Except.ok ⟨[⟨"good", fun _ => Except.ok ()⟩]⟩ ∧
    with_path sampleEmptyDir = Except.ok ⟨[]⟩ :=
  ⟨(inventory_with_path_contents_never_fail sampleDir rfl rfl rfl).1,
   (inventory_with_path_contents_never_fail sampleEmptyDir rfl rfl rfl).2 rfl⟩

open Memflow.Core in
/-- C3: `Connector::try_with` rejects any library whose descriptor carries a
`connector_version` different from `MEMFLOW_CONNECTOR_VERSION = 1` with a
`Connector` error — in particular `version = 0` — and accepts a library whose
descriptor exports `version = 1`. -/
theorem connector_try_with_version_gate {Args Conn : Type}
    (lib : LibraryFile Args Conn) (desc : ConnectorDescriptor Args Conn)
    (hload : lib.loads = true) (hdesc : lib.descriptor = some desc) :
    (desc.connector_version ≠ MEMFLOW_CONNECTOR_VERSION →
      Connector.try_with lib = Except.error (Error.Connector "connector version mismatch")) ∧
    (desc.connector_version = 0 →
      Connector.try_with lib = Except.error (Error.Connector "connector version mismatch")) ∧
    (desc.connector_version = MEMFLOW_CONNECTOR_VERSION →
      Connector.try_with lib = Except.ok ⟨desc.name, desc.factory⟩) := by
  refine ⟨fun hne => ?_, fun h0 => ?_, fun heq => ?_⟩
  · rw [Connector.try_with, hload, hdesc]
    simp [hne]
  · rw [Connector.try_with, hload, hdesc]
    have : desc.connector_version ≠ MEMFLOW_CONNECTOR_VERSION := by
      rw [h0, MEMFLOW_CONNECTOR_VERSION]; decide
    simp [this]
  · rw [Connector.try_with, hload, hdesc]
    simp [heq]

open Memflow.Core in
/-- Witness for C3: the version-0 sample library is rejected with the
version-mismatch `Connector` error; the version-1 sample library is
accepted. -/
theorem connector_try_with_version_gate_witness :
    Connector.try_with sampleStaleLib =
      Except.error (Error.Connector "connector version mismatch") ∧
    Connector.try_with sampleGoodLib =
      Except.ok ⟨"good", fun _ => Except.ok ()⟩ :=
  ⟨(connector_try_with_version_gate sampleStaleLib
      ⟨0, "stale", fun _ => Except.ok ()⟩ rfl rfl).2.1 rfl,
   (connector_try_with_version_gate sampleGoodLib
      ⟨1, "good", fun _ => Except.ok ()⟩ rfl rfl).2.2 rfl⟩

open Memflow.Core in
/-- C4: whenever a plugin factory returns an error, `Connector::create` (and
hence `ConnectorInventory::create_connector`) returns the `Connector`-kind
error with the fixed static message, never the plugin's own error value; and
this is the only error `create` ever produces. -/
theorem connector_create_static_error {Args Conn : Type}
    (c : Connector Args Conn) (args : Args) :
    (∀ e : Core.Error, c.factory args = Except.error e →
      c.create args = Except.error (Core.Error.Connector "Failed to create a connector")) ∧
    (∀ r : Core.Error, c.create args = Except.error r →
      r = Core.Error.Connector "Failed to create a connector") ∧
    (∀ (inv : ConnectorInventory Args Conn) (name : String) (e : Core.Error),
      inv.connectors.find? (fun x => x.name == name) = some c →
      c.factory args = Except.error e →
      create_connector inv name args =
        Except.error (Core.Error.Connector "Failed to create a connector")) := by
  refine ⟨fun e he => ?_, fun r hr => ?_, fun inv name e hfind he => ?_⟩
  · simp only [Connector.create, he]
  · simp only [Connector.create] at hr
    cases hfa : c.factory args with
    | ok v => rw [hfa] at hr; simp at hr
    | error e => rw [hfa] at hr; simpa using hr.symm
  · rw [create_connector, hfind]
    simp only [Connector.create, he]

open Memflow.Core in
/-- A connector whose factory always fails with a plugin-owned error, for the
C4 witness. -/
def sampleFailingConnector : Connector Unit Unit :=
  ⟨"boom", fun _ => Except.error (Error.Other "plugin internal failure")⟩

open Memflow.Core in
/-- Witness for C4: the failing sample connector's `create` (also through
`create_connector`) yields exactly the static `Connector` error. -/
theorem connector_create_static_error_witness :
    sampleFailingConnector.create () =
      Except.error (Error.Connector "Failed to create a connector") ∧
    create_connector ⟨[sampleFailingConnector]⟩ "boom" () =
      Except.error (Error.Connector "Failed to create a connector") :=
  ⟨(connector_create_static_error sampleFailingConnector ()).1
      (Error.Other "plugin internal failure") rfl,
   (connector_create_static_error sampleFailingConnector ()).2.2
      ⟨[sampleFailingConnector]⟩ "boom" (Error.Other "plugin internal failure") rfl rfl⟩

open Memflow.Core in
/-- C10: the `#[connector]`-generated descriptor carries
`connector_version = MEMFLOW_CONNECTOR_VERSION`, the macro's `name` argument
as its name, and a factory returning `Ok` with the boxed connector exactly
when the user function returns `Ok`; a loading library exporting this
descriptor passes `Connector::try_with`, so it is never rejected by the
version gate. -/
theorem derive_connector_descriptor_spec {Args Conn : Type}
    (name : String) (userFn : Args → Except Core.Error Conn) :
    (macroConnectorDescriptor name userFn).connector_version = MEMFLOW_CONNECTOR_VERSION ∧
    (macroConnectorDescriptor name userFn).name = name ∧
    (∀ (args : Args) (c : Conn),
      (macroConnectorDescriptor name userFn).factory args = Except.ok ⟨c⟩ ↔
        userFn args = Except.ok c) ∧
    Connector.try_with ⟨true, some (macroConnectorDescriptor name userFn)⟩ =
      Except.ok ⟨name, (macroConnectorDescriptor name userFn).factory⟩ := by
  refine ⟨rfl, rfl, fun args c => ?_, ?_⟩
  · rw [macroConnectorDescriptor]
    cases hu : userFn args with
    | ok v =>
      simp only [hu]
      constructor
      · intro h
        cases h
        rfl
      · intro h
        cases h
        rfl
    | error e =>
      simp [hu]
  · rw [Connector.try_with]
    simp [macroConnectorDescriptor]

open Memflow.Core Memflow.Ffi in
/-- C9: the C-ABI `phys_read_u32`/`phys_read_u64` return `0` whenever the
underlying physical read fails, for any memory instance and address; a failed
read is therefore indistinguishable from a successful read of `0`. -/
theorem phys_read_default_zero_on_error
    (memRead32 memRead64 : Nat → Except Core.Error Nat) (addr : Nat) :
    (∀ e : Core.Error, memRead32 addr = Except.error e →
      phys_read_u32 memRead32 addr = 0) ∧
    (∀ e : Core.Error, memRead64 addr = Except.error e →
      phys_read_u64 memRead64 addr = 0) ∧
    (∀ (memReadOk : Nat → Except Core.Error Nat) (e : Core.Error),
      memRead32 addr = Except.error e → memReadOk addr = Except.ok 0 →
      phys_read_u32 memRead32 addr = phys_read_u32 memReadOk addr) := by
  refine ⟨fun e he => ?_, fun e he => ?_, fun memReadOk e he hok => ?_⟩
  · simp only [phys_read_u32, he]
  · simp only [phys_read_u64, he]
  · simp only [phys_read_u32, he, hok]

open Memflow.Core Memflow.Ffi in
/-- Witness for C9: a memory whose reads always fail yields `0` from both
FFI readers, matching a memory that successfully reads `0`. -/
theorem phys_read_default_zero_on_error_witness :
    phys_read_u32 (fun _ => Except.error (Error.Io "read failed")) 0x1000 = 0 ∧
    phys_read_u64 (fun _ => Except.error (Error.Io "read failed")) 0x1000 = 0 ∧
    phys_read_u32 (fun _ => Except.error (Error.Io "read failed")) 0x1000 =
      phys_read_u32 (fun _ => Except.ok 0) 0x1000 :=
  ⟨(phys_read_default_zero_on_error (fun _ => Except.error (Error.Io "read failed"))
      (fun _ => Except.error (Error.Io "read failed")) 0x1000).1 (Error.Io "read failed") rfl,
   (phys_read_default_zero_on_error (fun _ => Except.error (Error.Io "read failed"))
      (fun _ => Except.error (Error.Io "read failed")) 0x1000).2.1 (Error.Io "read failed") rfl,
   (phys_read_default_zero_on_error (fun _ => Except.error (Error.Io "read failed"))
      (fun _ => Except.error (Error.Io "read failed")) 0x1000).2.2
      (fun _ => Except.ok 0) (Error.Io "read failed") rfl rfl⟩

open Memflow.Win32 in
/-- C1: the `memcache=<spec>` builder parses `page:<size><unit>;<ms>` and
`vat:<entries>;<ms>` sections separated by `&` — hexadecimal sizes scaled by
the unit (`kb`/`k` = 1024, `mb`/`m` = 1024², `gb`/`g` = 1024³), hexadecimal
vat entry count, decimal millisecond times. In particular
`page:1000mb;500&vat:100;500` yields a page-cache size of `0x1000 · 1 MiB`,
`0x100` vat entries and both validators at 500 ms, and a section missing its
`;` separator fails the build with a `Configuration` error. -/
theorem build_caches_memcache_spec :
    build_caches (some (String.toList "page:1000mb;500&vat:100;500")) =
      Except.ok (CachesChoice.custom
        ⟨PageCacheCfg.timed (0x1000 * 1048576) 500, VatCacheCfg.timed 0x100 500⟩) ∧
    build_caches (some (String.toList "page:1000mb&vat:100;500")) =
      Except.error ⟨ErrorOrigin.OsLayer, ErrorKind.Configuration,
        "Failed to parse Page Cache validator time"⟩ ∧
    build_caches (some (String.toList "page:1000mb;500&vat:100")) =
      Except.error ⟨ErrorOrigin.OsLayer, ErrorKind.Configuration,
        "Failed to parse VAT validator time"⟩ ∧
    build_page_cache (String.toList "page:1kb;7") = Except.ok (PageCacheCfg.timed 1024 7) ∧
    build_page_cache (String.toList "page:1k;7") = Except.ok (PageCacheCfg.timed 1024 7) ∧
    build_page_cache (String.toList "page:1mb;7") = Except.ok (PageCacheCfg.timed 1048576 7) ∧
    build_page_cache (String.toList "page:1m;7") = Except.ok (PageCacheCfg.timed 1048576 7) ∧
    build_page_cache (String.toList "page:1gb;7") = Except.ok (PageCacheCfg.timed 1073741824 7) ∧
    build_page_cache (String.toList "page:1g;7") = Except.ok (PageCacheCfg.timed 1073741824 7) ∧
    build_vat (String.toList "vat:ff;250") = Except.ok (VatCacheCfg.timed 255 250) :=
  ⟨rfl, rfl, rfl, rfl, rfl, rfl, rfl, rfl, rfl, rfl⟩

end MemflowTheorems
